import Mathlib

/-!
Shallow embedding of the galaxy-sandbox simulation core.

Numbers are modelled as real numbers (the source uses JS doubles and
transcendental functions; exactness statements of the spec are read over ℝ).

Source files embedded here:
  - src/utils/math.ts            (V3 vector helpers)
  - src/simulation/timeflow.ts   (advanceTime)
  - src/simulation/gravity.ts    (computeTopKInfluencers, applyGravityStep)
  - unnamed part_007             (rotX/rotY/rotZ, keplerSolve, updateKeplerOrbits)
  - unnamed part_008             (integrateBodies)
  - unnamed part_002             (FloatingOrigin.applyShift / maybeRecenter)
  - src/engine/ThreeRoot.ts      (safeNormalize, updateAsteroids per-asteroid step)
-/

namespace Galaxy

/-- Vectors: the source type Vec3 is a triple of numbers. -/
@[ext] structure Vec3 where
  x : ℝ
  y : ℝ
  z : ℝ

/-- Zero vector, used for the accumulator `let a: Vec3 = [0,0,0]`. -/
def Vec3.zero : Vec3 := ⟨0, 0, 0⟩

namespace V3

/-- Source: `add: (a, b) => [a[0]+b[0], a[1]+b[1], a[2]+b[2]]`. -/
def add (a b : Vec3) : Vec3 := ⟨a.x + b.x, a.y + b.y, a.z + b.z⟩

/-- Source: `sub: (a, b) => [a[0]-b[0], a[1]-b[1], a[2]-b[2]]`. -/
def sub (a b : Vec3) : Vec3 := ⟨a.x - b.x, a.y - b.y, a.z - b.z⟩

/-- Source: `mul: (a, s) => [a[0]*s, a[1]*s, a[2]*s]`. -/
def mul (a : Vec3) (s : ℝ) : Vec3 := ⟨a.x * s, a.y * s, a.z * s⟩

/-- Source: `dot: (a, b) => a[0]*b[0] + a[1]*b[1] + a[2]*b[2]`. -/
def dot (a b : Vec3) : ℝ := a.x * b.x + a.y * b.y + a.z * b.z

/-- Source: `len: (a) => Math.hypot(a[0], a[1], a[2])`. -/
noncomputable def len (a : Vec3) : ℝ := Real.sqrt (a.x ^ 2 + a.y ^ 2 + a.z ^ 2)

end V3

/-- Euclidean distance between two points, `V3.len (V3.sub a b)`. -/
noncomputable def dist3 (a b : Vec3) : ℝ := V3.len (V3.sub a b)

/-- Body kind tag, src/world/types.ts. -/
inductive BodyKind where
  | Star | Planet | Moon | Asteroid | Debris | BlackHole
deriving DecidableEq

/-- Orbit descriptor, src/world/types.ts. -/
structure Orbit where
  parentId : String
  semiMajorAxis : ℝ
  eccentricity : ℝ
  inclinationDeg : ℝ
  longitudeAscendingNodeDeg : ℝ
  argumentPeriapsisDeg : ℝ
  meanAnomalyAtEpochDeg : ℝ
  period : ℝ

/-- Black-hole descriptor, src/world/types.ts. -/
structure BlackHoleInfo where
  horizonRadius : ℝ
  absorbRadius : ℝ
  lensStrength : ℝ

/-- Rotation state of a body, src/world/types.ts. -/
structure RotState where
  spin : ℝ
  tiltDeg : ℝ
  phase : ℝ

/-- Body record, src/world/types.ts (rendering-only optional descriptors
atmosphere/ocean/ring/trail/tags are carried by the source record but read by
no simulation stage embedded here, so they are omitted from the embedding). -/
structure Body where
  id : String
  name : String
  kind : BodyKind
  visible : Bool
  position : Vec3
  velocity : Vec3
  radius : ℝ
  mass : ℝ
  rotation : RotState
  materialSeed : ℝ
  orbit : Option Orbit
  blackhole : Option BlackHoleInfo

/-- Placeholder body used as the default of list lookups with `getD`. -/
def dummyBody : Body :=
  { id := "", name := "", kind := .Star, visible := false,
    position := Vec3.zero, velocity := Vec3.zero, radius := 0, mass := 0,
    rotation := ⟨0, 0, 0⟩, materialSeed := 0, orbit := none, blackhole := none }

instance : Inhabited Body := ⟨dummyBody⟩

/-- Operating mode of the simulation (Realistic vs Chaos). -/
inductive Mode where
  | Realistic | Chaos
deriving DecidableEq

/-- Degree-to-radian factor, part_007: `const DEG = Math.PI / 180`. -/
noncomputable def DEG : ℝ := Real.pi / 180

/-- Truncation toward zero, the semantics of the JS number-to-integer part
used by the remainder. -/
noncomputable def jsTrunc (z : ℝ) : ℝ := if 0 ≤ z then (⌊z⌋ : ℝ) else (⌈z⌉ : ℝ)

/-- JS remainder x % y: result carries the sign of the dividend,
`x - y * trunc (x / y)`. -/
noncomputable def jsMod (x y : ℝ) : ℝ := x - y * jsTrunc (x / y)

/-- One Newton-Raphson update of the eccentric anomaly, part_007 keplerSolve
loop body: `E = E - (E - e*sin(E) - M) / max(1e-6, 1 - e*cos(E))`. -/
noncomputable def kStep (M e E : ℝ) : ℝ :=
  E - (E - e * Real.sin E - M) / max 1e-6 (1 - e * Real.cos E)

/-- Fixed 6-iteration Newton-Raphson solve of the Kepler equation, part_007:
starts at E = M, applies the update six times, no convergence check. -/
noncomputable def keplerSolve (M e : ℝ) : ℝ :=
  kStep M e (kStep M e (kStep M e (kStep M e (kStep M e (kStep M e M)))))

/-- Two-argument arctangent with the usual quadrant conventions
(JS Math.atan2, applied to real arguments). -/
noncomputable def atan2 (y x : ℝ) : ℝ :=
  if 0 < x then Real.arctan (y / x)
  else if x < 0 then
    (if 0 ≤ y then Real.arctan (y / x) + Real.pi else Real.arctan (y / x) - Real.pi)
  else
    (if 0 < y then Real.pi / 2 else if y < 0 then -(Real.pi / 2) else 0)

/-- Rotation about the X axis, part_007 rotX. -/
noncomputable def rotX (v : Vec3) (a : ℝ) : Vec3 :=
  ⟨v.x, v.y * Real.cos a - v.z * Real.sin a, v.y * Real.sin a + v.z * Real.cos a⟩

/-- Rotation about the Y axis, part_007 rotY (defined by the source module;
not used by updateKeplerOrbits). -/
noncomputable def rotY (v : Vec3) (a : ℝ) : Vec3 :=
  ⟨v.x * Real.cos a + v.z * Real.sin a, v.y, -(v.x * Real.sin a) + v.z * Real.cos a⟩

/-- Rotation about the Z axis, part_007 rotZ. -/
noncomputable def rotZ (v : Vec3) (a : ℝ) : Vec3 :=
  ⟨v.x * Real.cos a - v.y * Real.sin a, v.x * Real.sin a + v.y * Real.cos a, v.z⟩

/-- Lookup of a body by id. The source builds
`new Map(bodies.map((b) => [b.id, b]))`; for duplicate ids the later entry
overwrites, hence the lookup over the reversed list. -/
def lookupId (bodies : List Body) (pid : String) : Option Body :=
  bodies.reverse.find? (fun b => b.id == pid)

/-- Kepler offset of a body around its parent, part_007 updateKeplerOrbits
lines 40-56: mean motion, mean anomaly, Newton solve, orbital-plane position,
then rotation by argument of periapsis, inclination, ascending node. -/
noncomputable def keplerOffset (o : Orbit) (t ds : ℝ) : Vec3 :=
  let n := 2 * Real.pi / max 1e-6 o.period
  let M := jsMod (o.meanAnomalyAtEpochDeg * DEG + n * t) (2 * Real.pi)
  let e := o.eccentricity
  let a := o.semiMajorAxis * ds
  let E := keplerSolve M e
  let r := a * (1 - e * Real.cos E)
  let trueAnom := atan2 (Real.sqrt (1 - e * e) * Real.sin E) (Real.cos E - e)
  let pos0 : Vec3 := ⟨r * Real.cos trueAnom, 0, r * Real.sin trueAnom⟩
  rotZ (rotX (rotZ pos0 (o.argumentPeriapsisDeg * DEG)) (o.inclinationDeg * DEG))
    (o.longitudeAscendingNodeDeg * DEG)

/-- Per-body update of part_007 updateKeplerOrbits: bodies without an orbit
descriptor, or whose parent id does not resolve, pass through unmodified;
otherwise the position becomes parent position plus the Kepler offset (the
velocity is kept). There is no check of the body kind. -/
noncomputable def keplerUpdateBody (bodies : List Body) (t ds : ℝ) (b : Body) : Body :=
  match b.orbit with
  | none => b
  | some o =>
    match lookupId bodies o.parentId with
    | none => b
    | some parent => { b with position := V3.add parent.position (keplerOffset o t ds) }

/-- part_007 updateKeplerOrbits: `if (mode !== "Realistic") return bodies;`
then a map of the per-body update over the list (parent positions are read
from the input list). -/
noncomputable def updateKeplerOrbits (bodies : List Body) (t ds : ℝ) (mode : Mode) :
    List Body :=
  match mode with
  | .Chaos => bodies
  | .Realistic => bodies.map (keplerUpdateBody bodies t ds)

/-- Time Flow Controller, src/simulation/timeflow.ts:
`if (paused) return t; return t + dt * timeScale;`. -/
def advanceTime (t dt timeScale : ℝ) (paused : Bool) : ℝ :=
  if paused then t else t + dt * timeScale

/-- Gravity configuration, src/simulation/gravity.ts (the source type narrows
topK to 1 | 2; the claims instantiate it only at 1 and 2). -/
structure GravityConfig where
  G : ℝ
  topK : ℕ

/-- Candidate filter of computeTopKInfluencers: gravity sources are the other
visible bodies of kind Star, Planet, Moon or BlackHole. -/
def isGravitySource (target : Body) (b : Body) : Bool :=
  b.id != target.id && b.visible &&
    (b.kind == .Star || b.kind == .Planet || b.kind == .Moon || b.kind == .BlackHole)

/-- Score of a candidate, gravity.ts lines 27-33:
`mass / max(1e-6, dx*dx + dy*dy + dz*dz)`. -/
noncomputable def influenceScore (target b : Body) : ℝ :=
  let dx := b.position.x - target.position.x
  let dy := b.position.y - target.position.y
  let dz := b.position.z - target.position.z
  b.mass / max 1e-6 (dx * dx + dy * dy + dz * dz)

/-- Scored candidate pair. -/
structure Scored where
  b : Body
  score : ℝ

/-- Insertion into a descending-sorted list; an element goes before the first
entry whose score does not exceed it, so ties keep their original order
(JS Array.prototype.sort is stable). -/
noncomputable def sortInsertDesc (x : Scored) : List Scored → List Scored
  | [] => [x]
  | y :: ys => if y.score ≤ x.score then x :: y :: ys else y :: sortInsertDesc x ys

/-- Stable sort by descending score, the effect of
`.sort((a, b) => b.score - a.score)`. -/
noncomputable def sortScoredDesc : List Scored → List Scored
  | [] => []
  | x :: xs => sortInsertDesc x (sortScoredDesc xs)

/-- Sorted candidate list of a target: filter, score, sort descending. -/
noncomputable def sortedCandidates (bodies : List Body) (target : Body) : List Scored :=
  sortScoredDesc ((bodies.filter (isGravitySource target)).map
    (fun b => ⟨b, influenceScore target b⟩))

/-- gravity.ts computeTopKInfluencers: candidates filtered, scored by
mass/distance², sorted descending, the first k taken. -/
noncomputable def computeTopKInfluencers (bodies : List Body) (target : Body) (k : ℕ) :
    List Body :=
  ((sortedCandidates bodies target).take k).map Scored.b

/-- gravity.ts accelFrom: `r = source.position - targetPos`,
`d2 = max(1e-6, dot r r)`, `d = sqrt d2`, `a = G * source.mass / d2`,
result `r * (a / d)`. -/
noncomputable def accelFrom (source : Body) (targetPos : Vec3) (G : ℝ) : Vec3 :=
  let r := V3.sub source.position targetPos
  let d2 := max 1e-6 (V3.dot r r)
  let d := Real.sqrt d2
  let a := G * source.mass / d2
  V3.mul r (a / d)

/-- Accumulation `let a = [0,0,0]; for (const s of influencers) a = add a ...`. -/
noncomputable def accelSum (influencers : List Body) (targetPos : Vec3) (G : ℝ) : Vec3 :=
  influencers.foldl (fun acc s => V3.add acc (accelFrom s targetPos G)) Vec3.zero

/-- The four skip guards shared verbatim by applyGravityStep (gravity.ts
lines 46-49) and integrateBodies (part_008 lines 6-9): not visible, Star,
orbit-controlled of a kind other than Asteroid/Debris, BlackHole. -/
def freeBody (b : Body) : Bool :=
  b.visible && !(b.kind == .Star) &&
    !(b.orbit.isSome && !(b.kind == .Asteroid) && !(b.kind == .Debris)) &&
    !(b.kind == .BlackHole)

/-- gravity.ts applyGravityStep: a copied list; every free body gets
`velocity += accelSum(topK influencers) * dt`. The source loop mutates the
copies in place while selecting influencers from the copied list; selection
reads only id/visible/kind/mass/position, none of which the loop writes, so
selection from the input list is the same. -/
noncomputable def applyGravityStep (bodies : List Body) (dt : ℝ) (cfg : GravityConfig) :
    List Body :=
  bodies.map (fun b =>
    if freeBody b then
      let dv := V3.mul (accelSum (computeTopKInfluencers bodies b cfg.topK) b.position cfg.G) dt
      { b with velocity := V3.add b.velocity dv }
    else b)

/-- part_008 integrateBodies: the same four guards pass a body through;
otherwise `position += velocity * dt`. -/
noncomputable def integrateBodies (bodies : List Body) (dt : ℝ) : List Body :=
  bodies.map (fun b =>
    if freeBody b then { b with position := V3.add b.position (V3.mul b.velocity dt) }
    else b)

/-- State touched by the floating-origin rebase, part_002: the accumulated
origin offset, the threshold field (default 400), the body positions and the
two camera vectors. The source applyShift writes through its arguments
(`b.position[0] -= shift.x`, `cameraPos.sub(shift)`), so the fields of the
returned state are the post-call contents of the very objects passed in. -/
structure FOState where
  originOffset : Vec3
  threshold : ℝ
  bodies : List Vec3
  cameraPos : Vec3
  cameraTarget : Vec3

/-- Default of the threshold field: `threshold = 400`. -/
def FloatingOrigin.defaultThreshold : ℝ := 400

/-- The loop `for (const b of bodies) { b.position[i] -= shift[i] }`. -/
def shiftPositions (shift : Vec3) : List Vec3 → List Vec3
  | [] => []
  | p :: ps => V3.sub p shift :: shiftPositions shift ps

/-- part_002 FloatingOrigin.applyShift: adds the shift to the accumulator and
subtracts it from every body position and both camera vectors, in place. -/
def FloatingOrigin.applyShift (shift : Vec3) (st : FOState) : FOState :=
  { st with
      originOffset := V3.add st.originOffset shift,
      bodies := shiftPositions shift st.bodies,
      cameraPos := V3.sub st.cameraPos shift,
      cameraTarget := V3.sub st.cameraTarget shift }

/-- part_002 FloatingOrigin.maybeRecenter: no-op while the camera distance to
the origin stays below the threshold; otherwise applyShift by the camera
position itself. -/
noncomputable def FloatingOrigin.maybeRecenter (st : FOState) : FOState :=
  if V3.len st.cameraPos < st.threshold then st else FloatingOrigin.applyShift st.cameraPos st

/-- Engine-side body record, ThreeRoot.ts BodyInfo (color and hasRing are
rendering-only and omitted). The radius and mass fields already carry the
radiusScale and massScale factors; applyWorldStateToScene multiplies them in
before the list reaches updateAsteroids. -/
structure BodyInfo where
  id : String
  name : String
  type : String
  enabled : Bool
  pos : Vec3
  radius : ℝ
  mass : ℝ

/-- Engine-side asteroid-pool entry, ThreeRoot.ts Asteroid. -/
structure Asteroid where
  alive : Bool
  pos : Vec3
  vel : Vec3
  radius : ℝ
  mass : ℝ
  mat : ℕ
  ttl : ℝ

/-- Arguments of spawnImpact(pos, normal, energy): the impact event handed to
the effects layer. -/
structure ImpactEvent where
  pos : Vec3
  normal : Vec3
  energy : ℝ

/-- ThreeRoot.ts safeNormalize: divides by the length only when it exceeds
1e-8, otherwise returns the vector unchanged. -/
noncomputable def safeNormalize (v : Vec3) : Vec3 :=
  if 1e-8 < V3.len v then V3.mul v (1 / V3.len v) else v

/-- Gravitational constant of updateAsteroids: `const G = 0.08`. -/
noncomputable def G_AST : ℝ := 0.08

/-- Loop body of the top-1 influencer scan, updateAsteroids lines 973-982:
disabled bodies are skipped; an enabled body replaces the running best exactly
when its acceleration `G * mass / max(1e-6, |b.pos - a.pos|²)` strictly
exceeds the best so far. -/
noncomputable def bestStep (aPos : Vec3) (st : Option BodyInfo × ℝ) (b : BodyInfo) :
    Option BodyInfo × ℝ :=
  if b.enabled = false then st
  else
    let toV := V3.sub b.pos aPos
    let acc := G_AST * b.mass / max 1e-6 (V3.dot toV toV)
    if st.2 < acc then (some b, acc) else st

/-- The top-1 influencer scan of updateAsteroids lines 969-982: fold of the
loop body over the body list, starting from no best and bestAcc = 0. -/
noncomputable def bestInfluencer (bodies : List BodyInfo) (aPos : Vec3) :
    Option BodyInfo × ℝ :=
  bodies.foldl (bestStep aPos) (none, 0)

/-- Post-gravity velocity of an asteroid, updateAsteroids lines 984-990:
if a best influencer exists, `vel += safeNormalize(to) * (acc * dt)`. -/
noncomputable def astVel2 (bodies : List BodyInfo) (dt : ℝ) (a : Asteroid) : Vec3 :=
  match (bestInfluencer bodies a.pos).1 with
  | none => a.vel
  | some b =>
    let toV := V3.sub b.pos a.pos
    let acc := G_AST * b.mass / max 1e-6 (V3.dot toV toV)
    V3.add a.vel (V3.mul (safeNormalize toV) (acc * dt))

/-- Post-integration position, updateAsteroids line 992:
`a.pos.addScaledVector(a.vel, dt)` after the velocity update. -/
noncomputable def astPos2 (bodies : List BodyInfo) (dt : ℝ) (a : Asteroid) : Vec3 :=
  V3.add a.pos (V3.mul (astVel2 bodies dt a) dt)

/-- The hit scan of updateAsteroids lines 995-1002: walk the body list in
order (no kind filter, no enabled filter) and stop at the first body with
`distanceToSquared(pos) <= (b.radius + a.radius)^2`. -/
noncomputable def findHitBody (pos2 : Vec3) (aRadius : ℝ) : List BodyInfo → Option BodyInfo
  | [] => none
  | b :: bs =>
    if V3.dot (V3.sub pos2 b.pos) (V3.sub pos2 b.pos) ≤
        (b.radius + aRadius) * (b.radius + aRadius) then some b
    else findHitBody pos2 aRadius bs

/-- One iteration of the updateAsteroids loop for a single pool entry, with
the impact event it emits (rendering statements omitted): dead entries are
skipped; ttl is decremented and expiry kills the entry; gravity and
integration run; a hit on the first matching body computes
`energy = 0.5 * mass * |vel|²`, emits the event at
`hitBody.pos + normal * hitBody.radius` and kills the entry. -/
noncomputable def stepAsteroid (bodies : List BodyInfo) (dt : ℝ) (a : Asteroid) :
    Asteroid × Option ImpactEvent :=
  if a.alive = false then (a, none)
  else if a.ttl - dt ≤ 0 then ({ a with ttl := a.ttl - dt, alive := false }, none)
  else
    let vel2 := astVel2 bodies dt a
    let pos2 := astPos2 bodies dt a
    match findHitBody pos2 a.radius bodies with
    | some hb =>
      let normal := safeNormalize (V3.sub pos2 hb.pos)
      ({ a with ttl := a.ttl - dt, vel := vel2, pos := pos2, alive := false },
        some { pos := V3.add hb.pos (V3.mul normal hb.radius), normal := normal,
               energy := 0.5 * a.mass * V3.dot vel2 vel2 })
    | none => ({ a with ttl := a.ttl - dt, vel := vel2, pos := pos2 }, none)

/-- Circular orbit descriptor used by the concrete examples: unit semi-major
axis, zero eccentricity, all angles zero, unit period. -/
def orbitUnit (pid : String) : Orbit :=
  { parentId := pid, semiMajorAxis := 1, eccentricity := 0, inclinationDeg := 0,
    longitudeAscendingNodeDeg := 0, argumentPeriapsisDeg := 0,
    meanAnomalyAtEpochDeg := 0, period := 1 }

/-- Anchor star of the concrete examples. -/
def sunEx : Body :=
  { dummyBody with
    id := "sun", name := "Sun", kind := .Star, visible := true,
    position := Vec3.zero, radius := 2, mass := 100 }

/-- Asteroid-kind body carrying a resolved orbit descriptor (C1 example). -/
def astEx : Body :=
  { dummyBody with
    id := "ast1", name := "Ast", kind := .Asteroid, visible := true,
    position := ⟨5, 5, 5⟩, radius := 1, mass := 1, orbit := some (orbitUnit "sun") }

/-- Star-kind body carrying a resolved orbit descriptor (C3 example). -/
def starOrbEx : Body :=
  { dummyBody with
    id := "star2", name := "Companion", kind := .Star, visible := true,
    position := ⟨5, 5, 5⟩, radius := 1, mass := 50, orbit := some (orbitUnit "sun") }

section Lemmas

lemma len_rotZ (v : Vec3) (a : ℝ) : V3.len (rotZ v a) = V3.len v := by
  unfold V3.len rotZ
  congr 1
  linear_combination (v.x ^ 2 + v.y ^ 2) * Real.sin_sq_add_cos_sq a

lemma len_rotX (v : Vec3) (a : ℝ) : V3.len (rotX v a) = V3.len v := by
  unfold V3.len rotX
  congr 1
  linear_combination (v.y ^ 2 + v.z ^ 2) * Real.sin_sq_add_cos_sq a

lemma dist3_add_left (p off : Vec3) : dist3 (V3.add p off) p = V3.len off := by
  unfold dist3 V3.sub V3.add V3.len
  congr 1
  ring

lemma kStep_e0 (M E : ℝ) : kStep M 0 E = M := by
  unfold kStep
  rw [zero_mul, zero_mul, sub_zero, sub_zero,
    show max (1e-6 : ℝ) 1 = 1 from max_eq_right (by norm_num)]
  ring

lemma keplerSolve_e0 (M : ℝ) : keplerSolve M 0 = M := by
  unfold keplerSolve
  rw [kStep_e0]

lemma len_keplerOffset_e0 (o : Orbit) (t ds : ℝ) (he : o.eccentricity = 0)
    (ha : 0 ≤ o.semiMajorAxis * ds) :
    V3.len (keplerOffset o t ds) = o.semiMajorAxis * ds := by
  unfold keplerOffset
  rw [len_rotZ, len_rotX, len_rotZ, he]
  unfold V3.len
  rw [show o.semiMajorAxis * ds * (1 - 0 * Real.cos (keplerSolve
      (jsMod (o.meanAnomalyAtEpochDeg * DEG + 2 * Real.pi / max 1e-6 o.period * t)
        (2 * Real.pi)) 0)) = o.semiMajorAxis * ds by ring]
  have hsc := Real.sin_sq_add_cos_sq (atan2 (Real.sqrt (1 - 0 * 0) *
    Real.sin (keplerSolve (jsMod (o.meanAnomalyAtEpochDeg * DEG +
      2 * Real.pi / max 1e-6 o.period * t) (2 * Real.pi)) 0))
    (Real.cos (keplerSolve (jsMod (o.meanAnomalyAtEpochDeg * DEG +
      2 * Real.pi / max 1e-6 o.period * t) (2 * Real.pi)) 0) - 0))
  rw [show ∀ c s : ℝ, (o.semiMajorAxis * ds * c) ^ 2 + (0 : ℝ) ^ 2 +
      (o.semiMajorAxis * ds * s) ^ 2 =
      (o.semiMajorAxis * ds) ^ 2 * (s ^ 2 + c ^ 2) from fun c s => by ring, hsc,
    mul_one, Real.sqrt_sq ha]

lemma length_updateKeplerOrbits (bodies : List Body) (t ds : ℝ) (m : Mode) :
    (updateKeplerOrbits bodies t ds m).length = bodies.length := by
  cases m <;> simp [updateKeplerOrbits]

lemma jsMod_zero (y : ℝ) : jsMod 0 y = 0 := by
  unfold jsMod jsTrunc
  norm_num

lemma atan2_zero_one : atan2 0 1 = 0 := by
  unfold atan2
  rw [if_pos one_pos]
  norm_num

lemma rotZ_zero (v : Vec3) : rotZ v 0 = v := by
  unfold rotZ
  ext <;> simp

lemma rotX_zero (v : Vec3) : rotX v 0 = v := by
  unfold rotX
  ext <;> simp

lemma keplerOffset_orbitUnit (pid : String) :
    keplerOffset (orbitUnit pid) 0 1 = ⟨1, 0, 0⟩ := by
  unfold keplerOffset orbitUnit
  simp only [mul_zero, zero_mul, add_zero, zero_add]
  rw [jsMod_zero, keplerSolve_e0, rotZ_zero, rotX_zero, rotZ_zero]
  ext <;> simp [atan2_zero_one]

lemma updateKepler_get (bodies : List Body) (t ds : ℝ) (i : ℕ)
    (hi : i < bodies.length)
    (hi2 : i < (updateKeplerOrbits bodies t ds Mode.Realistic).length) :
    (updateKeplerOrbits bodies t ds Mode.Realistic).get ⟨i, hi2⟩ =
      keplerUpdateBody bodies t ds (bodies.get ⟨i, hi⟩) := by
  simp [updateKeplerOrbits, List.get_eq_getElem, List.getElem_map]

/-- Planet-kind body on the unit circular orbit (C8 example). -/
def plEx : Body :=
  { dummyBody with
    id := "pl", name := "P", kind := .Planet, visible := true,
    position := ⟨3, 0, 0⟩, radius := 1, mass := 10, orbit := some (orbitUnit "sun") }

lemma freeBody_of_asteroid_or_debris (b : Body)
    (hk : b.kind = BodyKind.Asteroid ∨ b.kind = BodyKind.Debris)
    (hv : b.visible = true) : freeBody b = true := by
  rcases hk with hk | hk <;> simp [freeBody, hk, hv]

lemma freeBody_star (b : Body) (hk : b.kind = BodyKind.Star) : freeBody b = false := by
  simp [freeBody, hk]

lemma applyGravity_get (bodies : List Body) (dt : ℝ) (cfg : GravityConfig) (i : ℕ)
    (hi : i < bodies.length)
    (hi2 : i < (applyGravityStep bodies dt cfg).length) :
    (applyGravityStep bodies dt cfg).get ⟨i, hi2⟩ =
      (if freeBody (bodies.get ⟨i, hi⟩) then
        { bodies.get ⟨i, hi⟩ with
          velocity :=
            V3.add (bodies.get ⟨i, hi⟩).velocity
              (V3.mul (accelSum (computeTopKInfluencers bodies (bodies.get ⟨i, hi⟩) cfg.topK)
                (bodies.get ⟨i, hi⟩).position cfg.G) dt) }
      else bodies.get ⟨i, hi⟩) := by
  simp [applyGravityStep, List.get_eq_getElem, List.getElem_map]

lemma integrate_get (bodies : List Body) (dt : ℝ) (i : ℕ)
    (hi : i < bodies.length)
    (hi2 : i < (integrateBodies bodies dt).length) :
    (integrateBodies bodies dt).get ⟨i, hi2⟩ =
      (if freeBody (bodies.get ⟨i, hi⟩) then
        { bodies.get ⟨i, hi⟩ with
          position :=
            V3.add (bodies.get ⟨i, hi⟩).position
              (V3.mul (bodies.get ⟨i, hi⟩).velocity dt) }
      else bodies.get ⟨i, hi⟩) := by
  simp [integrateBodies, List.get_eq_getElem, List.getElem_map]

lemma length_applyGravityStep (bodies : List Body) (dt : ℝ) (cfg : GravityConfig) :
    (applyGravityStep bodies dt cfg).length = bodies.length := by
  simp [applyGravityStep]

lemma length_integrateBodies (bodies : List Body) (dt : ℝ) :
    (integrateBodies bodies dt).length = bodies.length := by
  simp [integrateBodies]

lemma v3_add_zero (a : Vec3) : V3.add a Vec3.zero = a := by
  unfold V3.add Vec3.zero
  ext <;> simp

lemma v3_zero_add (a : Vec3) : V3.add Vec3.zero a = a := by
  unfold V3.add Vec3.zero
  ext <;> simp

lemma v3_add_assoc (a b c : Vec3) : V3.add (V3.add a b) c = V3.add a (V3.add b c) := by
  unfold V3.add
  ext <;> dsimp <;> ring

lemma v3_mul_add (a b : Vec3) (s : ℝ) :
    V3.mul (V3.add a b) s = V3.add (V3.mul a s) (V3.mul b s) := by
  unfold V3.mul V3.add
  ext <;> dsimp <;> ring

lemma accelSum_shift (l : List Body) (p : Vec3) (G : ℝ) (a : Vec3) :
    l.foldl (fun acc s => V3.add acc (accelFrom s p G)) a = V3.add a (accelSum l p G) := by
  induction l generalizing a with
  | nil => simp [accelSum, v3_add_zero]
  | cons x xs ih =>
    simp only [List.foldl_cons, accelSum]
    rw [ih, ih (V3.add Vec3.zero (accelFrom x p G)), v3_zero_add, v3_add_assoc]

lemma accelSum_append (l1 l2 : List Body) (p : Vec3) (G : ℝ) :
    accelSum (l1 ++ l2) p G = V3.add (accelSum l1 p G) (accelSum l2 p G) := by
  unfold accelSum
  rw [List.foldl_append, accelSum_shift]
  unfold accelSum
  rfl

lemma computeTopK_two_split (bodies : List Body) (target : Body) :
    computeTopKInfluencers bodies target 2 =
      computeTopKInfluencers bodies target 1 ++
        (((sortedCandidates bodies target).drop 1).take 1).map Scored.b := by
  unfold computeTopKInfluencers
  rw [show (2 : ℕ) = 1 + 1 from rfl, List.take_add, List.map_append]

/-- Target body of the opposed-sources gravity example. -/
def target4 : Body :=
  { dummyBody with
    id := "t", name := "T", kind := .Asteroid, visible := true,
    position := Vec3.zero, velocity := Vec3.zero, radius := 1, mass := 1 }

/-- Strong gravity source at (1,0,0) with mass 2. -/
def srcA : Body :=
  { dummyBody with
    id := "s1", name := "S1", kind := .Star, visible := true,
    position := ⟨1, 0, 0⟩, radius := 1, mass := 2 }

/-- Weak gravity source at (-1,0,0) with mass 1, exactly opposed to srcA. -/
def srcB : Body :=
  { dummyBody with
    id := "s2", name := "S2", kind := .Star, visible := true,
    position := ⟨-1, 0, 0⟩, radius := 1, mass := 1 }

/-- Three-body list of the opposed-sources example. -/
def bodies4 : List Body := [target4, srcA, srcB]

lemma scoreA : influenceScore target4 srcA = 2 := by
  unfold influenceScore srcA target4 dummyBody Vec3.zero
  norm_num

lemma scoreB : influenceScore target4 srcB = 1 := by
  unfold influenceScore srcB target4 dummyBody Vec3.zero
  norm_num

lemma sorted4 : sortedCandidates bodies4 target4 =
    [⟨srcA, influenceScore target4 srcA⟩, ⟨srcB, influenceScore target4 srcB⟩] := by
  have hs : influenceScore target4 srcB ≤ influenceScore target4 srcA := by
    rw [scoreA, scoreB]
    norm_num
  unfold sortedCandidates
  rw [show bodies4.filter (isGravitySource target4) = [srcA, srcB] from rfl]
  simp only [List.map]
  rw [show sortScoredDesc [(⟨srcA, influenceScore target4 srcA⟩ : Scored),
      ⟨srcB, influenceScore target4 srcB⟩] =
    sortInsertDesc ⟨srcA, influenceScore target4 srcA⟩
      [⟨srcB, influenceScore target4 srcB⟩] from rfl]
  unfold sortInsertDesc
  dsimp only
  rw [if_pos hs]

lemma topK4_one : computeTopKInfluencers bodies4 target4 1 = [srcA] := by
  unfold computeTopKInfluencers
  rw [sorted4]
  rfl

lemma topK4_two : computeTopKInfluencers bodies4 target4 2 = [srcA, srcB] := by
  unfold computeTopKInfluencers
  rw [sorted4]
  rfl

lemma accelA : accelFrom srcA Vec3.zero 1 = ⟨2, 0, 0⟩ := by
  unfold accelFrom srcA dummyBody V3.sub V3.dot V3.mul Vec3.zero
  norm_num

lemma accelB : accelFrom srcB Vec3.zero 1 = ⟨-1, 0, 0⟩ := by
  unfold accelFrom srcB dummyBody V3.sub V3.dot V3.mul Vec3.zero
  norm_num

lemma grav4_entry (cfg : GravityConfig) :
    (applyGravityStep bodies4 1 cfg).getD 0 dummyBody =
      { target4 with
        velocity :=
          V3.add target4.velocity
            (V3.mul (accelSum (computeTopKInfluencers bodies4 target4 cfg.topK)
              target4.position cfg.G) 1) } := rfl

lemma v3_mul_one (a : Vec3) : V3.mul a 1 = a := by
  unfold V3.mul
  ext <;> simp

lemma accelSum4_one : accelSum [srcA] Vec3.zero 1 = ⟨2, 0, 0⟩ := by
  unfold accelSum
  simp only [List.foldl]
  rw [accelA, v3_zero_add]

lemma accelSum4_two : accelSum [srcA, srcB] Vec3.zero 1 = ⟨1, 0, 0⟩ := by
  unfold accelSum
  simp only [List.foldl]
  rw [accelA, accelB, v3_zero_add]
  unfold V3.add
  ext <;> norm_num

lemma grav4_vel_two :
    ((applyGravityStep bodies4 1 ⟨1, 2⟩).getD 0 dummyBody).velocity = ⟨1, 0, 0⟩ := by
  rw [grav4_entry]
  show V3.add target4.velocity
      (V3.mul (accelSum (computeTopKInfluencers bodies4 target4 2) target4.position 1) 1) = _
  rw [topK4_two, show target4.position = Vec3.zero from rfl, accelSum4_two,
    show target4.velocity = Vec3.zero from rfl, v3_zero_add, v3_mul_one]

lemma grav4_vel_one :
    ((applyGravityStep bodies4 1 ⟨1, 1⟩).getD 0 dummyBody).velocity = ⟨2, 0, 0⟩ := by
  rw [grav4_entry]
  show V3.add target4.velocity
      (V3.mul (accelSum (computeTopKInfluencers bodies4 target4 1) target4.position 1) 1) = _
  rw [topK4_one, show target4.position = Vec3.zero from rfl, accelSum4_one,
    show target4.velocity = Vec3.zero from rfl, v3_zero_add, v3_mul_one]

lemma len_two_x : V3.len ⟨2, 0, 0⟩ = 2 := by
  unfold V3.len
  rw [show (2 : ℝ) ^ 2 + 0 ^ 2 + 0 ^ 2 = 2 ^ 2 by ring, Real.sqrt_sq (by norm_num)]

lemma len_one_x : V3.len ⟨1, 0, 0⟩ = 1 := by
  unfold V3.len
  norm_num

lemma shiftPositions_eq_map (s : Vec3) (l : List Vec3) :
    shiftPositions s l = l.map (fun p => V3.sub p s) := by
  induction l with
  | nil => rfl
  | cons p ps ih => simp [shiftPositions, ih]

lemma shiftPositions_getD (s : Vec3) (l : List Vec3) (i : ℕ) (hi : i < l.length) :
    (shiftPositions s l).getD i Vec3.zero = V3.sub (l.getD i Vec3.zero) s := by
  rw [shiftPositions_eq_map,
    List.getD_eq_getElem _ _ (by simpa using hi),
    List.getD_eq_getElem _ _ hi, List.getElem_map]

lemma dist3_sub_sub (a b s : Vec3) : dist3 (V3.sub a s) (V3.sub b s) = dist3 a b := by
  unfold dist3 V3.sub V3.len
  congr 1
  ring

lemma offset_invariant (off s p : Vec3) :
    V3.add (V3.add off s) (V3.sub p s) = V3.add off p := by
  unfold V3.add V3.sub
  ext <;> dsimp <;> ring

/-- Concrete floating-origin state: camera 500 units out, past the 400
threshold. -/
def st6 : FOState :=
  { originOffset := ⟨10, 0, 0⟩, threshold := FloatingOrigin.defaultThreshold,
    bodies := [⟨1, 2, 3⟩, ⟨4, 5, 6⟩], cameraPos := ⟨500, 0, 0⟩,
    cameraTarget := ⟨0, 0, 1⟩ }

lemma len_500_x : V3.len ⟨500, 0, 0⟩ = 500 := by
  unfold V3.len
  rw [show (500 : ℝ) ^ 2 + 0 ^ 2 + 0 ^ 2 = 500 ^ 2 by ring,
    Real.sqrt_sq (by norm_num)]

lemma maybeRecenter_st6 :
    FloatingOrigin.maybeRecenter st6 = FloatingOrigin.applyShift st6.cameraPos st6 := by
  unfold FloatingOrigin.maybeRecenter
  rw [if_neg]
  rw [show st6.cameraPos = ⟨500, 0, 0⟩ from rfl, len_500_x,
    show st6.threshold = 400 from rfl]
  norm_num

lemma v3_zero_mul (s : ℝ) : V3.mul Vec3.zero s = Vec3.zero := by
  unfold V3.mul Vec3.zero
  ext <;> simp

lemma len_sq_eq_dot (v : Vec3) : V3.len v ^ 2 = V3.dot v v := by
  unfold V3.len V3.dot
  rw [Real.sq_sqrt (by positivity)]
  ring

lemma findHitBody_first (p : Vec3) (r : ℝ) (xs ys : List BodyInfo) (b : BodyInfo)
    (hmiss : ∀ x ∈ xs, ¬(V3.dot (V3.sub p x.pos) (V3.sub p x.pos) ≤
      (x.radius + r) * (x.radius + r)))
    (hhit : V3.dot (V3.sub p b.pos) (V3.sub p b.pos) ≤ (b.radius + r) * (b.radius + r)) :
    findHitBody p r (xs ++ b :: ys) = some b := by
  induction xs with
  | nil =>
    rw [List.nil_append]
    unfold findHitBody
    rw [if_pos hhit]
  | cons x xs ih =>
    rw [List.cons_append]
    unfold findHitBody
    rw [if_neg (hmiss x (by simp))]
    exact ih (fun y hy => hmiss y (by simp [hy]))

lemma stepAsteroid_hit_eq (bodies : List BodyInfo) (dt : ℝ) (a : Asteroid) (hb : BodyInfo)
    (h1 : a.alive = true) (h2 : ¬(a.ttl - dt ≤ 0))
    (h3 : findHitBody (astPos2 bodies dt a) a.radius bodies = some hb) :
    stepAsteroid bodies dt a =
      ({ a with
         ttl := a.ttl - dt, vel := astVel2 bodies dt a, pos := astPos2 bodies dt a,
         alive := false },
       some { pos := V3.add hb.pos
                (V3.mul (safeNormalize (V3.sub (astPos2 bodies dt a) hb.pos)) hb.radius),
              normal := safeNormalize (V3.sub (astPos2 bodies dt a) hb.pos),
              energy := 0.5 * a.mass *
                V3.dot (astVel2 bodies dt a) (astVel2 bodies dt a) }) := by
  unfold stepAsteroid
  rw [if_neg (by simp [h1]), if_neg h2]
  dsimp only
  rw [h3]

lemma stepAsteroid_nohit_eq (bodies : List BodyInfo) (dt : ℝ) (a : Asteroid)
    (h1 : a.alive = true) (h2 : ¬(a.ttl - dt ≤ 0))
    (h3 : findHitBody (astPos2 bodies dt a) a.radius bodies = none) :
    stepAsteroid bodies dt a =
      ({ a with
         ttl := a.ttl - dt, vel := astVel2 bodies dt a, pos := astPos2 bodies dt a },
       none) := by
  unfold stepAsteroid
  rw [if_neg (by simp [h1]), if_neg h2]
  dsimp only
  rw [h3]

/-- Engine-side record of the example black hole: scaled mesh radius 0.6,
mass 0 (so the gravity scan leaves the probe untouched). -/
def bhInfo : BodyInfo :=
  { id := "bh", name := "BH", type := "blackhole", enabled := true,
    pos := Vec3.zero, radius := 0.6, mass := 0 }

/-- World-side record of the same black hole, carrying the descriptor with
absorbRadius 1.2 (the value of the blackhole-lab preset). -/
def bhWorld : Body :=
  { dummyBody with
    id := "bh", name := "BH", kind := .BlackHole, visible := true,
    position := Vec3.zero, radius := 0.6, mass := 0,
    blackhole := some ⟨0.6, 1.2, 1.1⟩ }

/-- Probe asteroid resting at distance 1 from the black hole center. -/
def ast2 : Asteroid :=
  { alive := true, pos := ⟨1, 0, 0⟩, vel := Vec3.zero, radius := 0.04, mass := 1,
    mat := 0, ttl := 90 }

lemma bestStep_disabled (aPos : Vec3) (st : Option BodyInfo × ℝ) (b : BodyInfo)
    (h : b.enabled = false) : bestStep aPos st b = st := by
  unfold bestStep
  rw [if_pos h]

lemma bestStep_massZero (aPos : Vec3) (st : Option BodyInfo × ℝ) (b : BodyInfo)
    (h : b.mass = 0) (hst : st.2 = 0) : bestStep aPos st b = st := by
  unfold bestStep
  by_cases he : b.enabled = false
  · rw [if_pos he]
  · rw [if_neg he]
    dsimp only
    rw [if_neg (by rw [h, hst]; norm_num)]

lemma best_c2 : bestInfluencer [bhInfo] ast2.pos = (none, 0) := by
  unfold bestInfluencer
  simp only [List.foldl]
  rw [bestStep_massZero _ _ _ rfl rfl]

lemma vel_c2 : astVel2 [bhInfo] 1 ast2 = Vec3.zero := by
  unfold astVel2
  rw [best_c2]
  rfl

lemma pos_c2 : astPos2 [bhInfo] 1 ast2 = ⟨1, 0, 0⟩ := by
  unfold astPos2
  rw [vel_c2, v3_zero_mul, v3_add_zero]
  rfl

lemma findhit_c2 : findHitBody (astPos2 [bhInfo] 1 ast2) ast2.radius [bhInfo] = none := by
  rw [pos_c2]
  unfold findHitBody
  rw [if_neg (by norm_num [bhInfo, ast2, V3.dot, V3.sub, Vec3.zero])]
  rfl

lemma dist_c2 : dist3 ast2.pos bhWorld.position = 1 := by
  unfold dist3 V3.sub V3.len ast2 bhWorld dummyBody Vec3.zero
  norm_num

/-- Star-typed engine body of radius 0.96 at the origin (C5 example); mass 0
keeps the gravity scan inert. -/
def starInfo : BodyInfo :=
  { id := "st", name := "S", type := "star", enabled := true,
    pos := Vec3.zero, radius := 0.96, mass := 0 }

/-- Asteroid of radius 0.04 resting at distance 0.95 from the star center:
inside the radius-sum shell (1.0) but outside its 0.9-shrunk version. -/
def ast5 : Asteroid :=
  { alive := true, pos := ⟨0.95, 0, 0⟩, vel := Vec3.zero, radius := 0.04, mass := 1,
    mat := 0, ttl := 90 }

/-- Disabled far-away body, the leading non-matching entry of the C5 witness
list. -/
def farInfo : BodyInfo :=
  { id := "far", name := "F", type := "planet", enabled := false,
    pos := ⟨100, 0, 0⟩, radius := 1, mass := 3 }

lemma best_c5 : bestInfluencer [starInfo] ast5.pos = (none, 0) := by
  unfold bestInfluencer
  simp only [List.foldl]
  rw [bestStep_massZero _ _ _ rfl rfl]

lemma best_c5w : bestInfluencer [farInfo, starInfo, bhInfo] ast5.pos = (none, 0) := by
  unfold bestInfluencer
  simp only [List.foldl]
  rw [bestStep_disabled ast5.pos (none, 0) farInfo rfl,
    bestStep_massZero ast5.pos (none, 0) starInfo rfl rfl,
    bestStep_massZero ast5.pos (none, 0) bhInfo rfl rfl]

lemma vel_c5w : astVel2 [farInfo, starInfo, bhInfo] 1 ast5 = Vec3.zero := by
  unfold astVel2
  rw [best_c5w]
  rfl

lemma pos_c5w : astPos2 [farInfo, starInfo, bhInfo] 1 ast5 = ⟨0.95, 0, 0⟩ := by
  unfold astPos2
  rw [vel_c5w, v3_zero_mul, v3_add_zero]
  rfl

lemma vel_c5 : astVel2 [starInfo] 1 ast5 = Vec3.zero := by
  unfold astVel2
  rw [best_c5]
  rfl

lemma pos_c5 : astPos2 [starInfo] 1 ast5 = ⟨0.95, 0, 0⟩ := by
  unfold astPos2
  rw [vel_c5, v3_zero_mul, v3_add_zero]
  rfl

lemma findhit_c5 :
    findHitBody (astPos2 [starInfo] 1 ast5) ast5.radius [starInfo] = some starInfo := by
  rw [pos_c5]
  unfold findHitBody
  rw [if_pos (by norm_num [starInfo, ast5, V3.dot, V3.sub, Vec3.zero])]

lemma dist_c5 : dist3 (astPos2 [starInfo] 1 ast5) starInfo.pos = 0.95 := by
  rw [pos_c5]
  unfold dist3 V3.sub V3.len starInfo Vec3.zero
  rw [show ((0.95 : ℝ) - 0) ^ 2 + (0 - 0) ^ 2 + (0 - 0) ^ 2 = 0.95 ^ 2 by norm_num,
    Real.sqrt_sq (by norm_num)]

/-- Disabled planet of radius 1 at the origin (C9 example): disabled bodies
are skipped by the gravity scan yet still hit-tested by the source loop. -/
def pl9 : BodyInfo :=
  { id := "p", name := "P", type := "planet", enabled := false,
    pos := Vec3.zero, radius := 1, mass := 5 }

/-- Mass-1 asteroid flying at speed 10 along x toward the planet. -/
def ast9 : Asteroid :=
  { alive := true, pos := ⟨-9.5, 0, 0⟩, vel := ⟨10, 0, 0⟩, radius := 0.04, mass := 1,
    mat := 0, ttl := 90 }

lemma vel_c9 : astVel2 [pl9] 1 ast9 = ⟨10, 0, 0⟩ := rfl

lemma pos_c9 : astPos2 [pl9] 1 ast9 = ⟨0.5, 0, 0⟩ := by
  unfold astPos2
  rw [vel_c9]
  unfold V3.add V3.mul ast9
  ext <;> norm_num

lemma findhit_c9 :
    findHitBody (astPos2 [pl9] 1 ast9) ast9.radius [pl9] = some pl9 := by
  rw [pos_c9]
  unfold findHitBody
  rw [if_pos (by norm_num [pl9, ast9, V3.dot, V3.sub, Vec3.zero])]

end Lemmas

/-- C10: advanceTime returns t unchanged whenever paused, and t + dt·timeScale
whenever not paused; in particular advanceTime 5 1 20 false = 25 and
advanceTime 5 1 20 true = 5. -/
theorem C10_advanceTime_contract :
    (∀ t dt ts : ℝ, advanceTime t dt ts true = t) ∧
    (∀ t dt ts : ℝ, advanceTime t dt ts false = t + dt * ts) ∧
    advanceTime 5 1 20 false = 25 ∧
    advanceTime 5 1 20 true = 5 := by
  refine ⟨fun t dt ts => rfl, fun t dt ts => rfl, ?_, rfl⟩
  show (5 : ℝ) + 1 * 20 = 25
  norm_num

/-- C8: a body updated by updateKeplerOrbits in Realistic mode with a resolved
parent and eccentricity 0 lies exactly on the circle of radius
semiMajorAxis·distanceScale centered on the parent position; the 6-iteration
Newton solve returns E = M exactly when e = 0, and the element rotations
preserve vector length. -/
theorem C8_circular_orbit_on_circle (bodies : List Body) (t ds : ℝ) (i : ℕ)
    (hi : i < bodies.length)
    (hi2 : i < (updateKeplerOrbits bodies t ds Mode.Realistic).length)
    (o : Orbit) (parent : Body)
    (ho : (bodies.get ⟨i, hi⟩).orbit = some o)
    (he : o.eccentricity = 0)
    (hp : lookupId bodies o.parentId = some parent)
    (ha : 0 ≤ o.semiMajorAxis * ds) :
    dist3 ((updateKeplerOrbits bodies t ds Mode.Realistic).get ⟨i, hi2⟩).position
        parent.position = o.semiMajorAxis * ds ∧
    (∀ M : ℝ, keplerSolve M 0 = M) ∧
    (∀ (v : Vec3) (ang : ℝ), V3.len (rotZ v ang) = V3.len v ∧
      V3.len (rotX v ang) = V3.len v) := by
  refine ⟨?_, keplerSolve_e0, fun v ang => ⟨len_rotZ v ang, len_rotX v ang⟩⟩
  rw [updateKepler_get bodies t ds i hi hi2]
  unfold keplerUpdateBody
  rw [ho]
  dsimp only
  rw [hp]
  dsimp only
  rw [dist3_add_left, len_keplerOffset_e0 o t ds he ha]

/-- Witness for C8 at a concrete two-body system: the planet on the unit
circular orbit around the sun sits at distance 1·1 from the sun position. -/
theorem C8_circular_orbit_on_circle_witness :
    dist3 ((updateKeplerOrbits [sunEx, plEx] 0 1 Mode.Realistic).get
        ⟨1, by simp [length_updateKeplerOrbits]⟩).position sunEx.position = 1 := by
  have h := (C8_circular_orbit_on_circle [sunEx, plEx] 0 1 1 (by norm_num)
    (by simp [length_updateKeplerOrbits]) (orbitUnit "sun") sunEx rfl rfl rfl
    (by norm_num [orbitUnit])).1
  simpa [orbitUnit] using h

/-- C1 counterexample: an Asteroid-kind body carrying an orbit descriptor whose
parent id resolves does NOT keep its position under updateKeplerOrbits in
Realistic mode — the body at (5,5,5) is moved onto its Kepler orbit. -/
theorem C1_counterexample :
    astEx.kind = BodyKind.Asteroid ∧
    astEx.orbit = some (orbitUnit "sun") ∧
    lookupId [sunEx, astEx] "sun" = some sunEx ∧
    ((updateKeplerOrbits [sunEx, astEx] 0 1 Mode.Realistic).getD 1 dummyBody).position ≠
      astEx.position := by
  refine ⟨rfl, rfl, rfl, ?_⟩
  have h0 : (updateKeplerOrbits [sunEx, astEx] 0 1 Mode.Realistic).getD 1 dummyBody =
      { astEx with position := V3.add sunEx.position (keplerOffset (orbitUnit "sun") 0 1) } :=
    rfl
  rw [h0, keplerOffset_orbitUnit]
  intro hcontra
  have hx := congrArg Vec3.x hcontra
  simp [astEx, sunEx, dummyBody, V3.add, Vec3.zero] at hx

/-- C1 amended: updateKeplerOrbits sets the position of every body that has an
orbit descriptor with a resolved parent — Asteroid/Debris kinds included — to
parent position plus the Kepler offset; the Asteroid/Debris force-driven
exception lives only in applyGravityStep (which still updates their velocity)
and integrateBodies (which still advances their position by velocity·dt),
orbit descriptor present or not. -/
theorem C1_amended_asteroids_orbit_overwritten_but_force_driven :
    (∀ (bodies : List Body) (t ds : ℝ) (i : ℕ)
      (hi : i < bodies.length)
      (hi2 : i < (updateKeplerOrbits bodies t ds Mode.Realistic).length)
      (o : Orbit) (parent : Body),
      (bodies.get ⟨i, hi⟩).orbit = some o →
      lookupId bodies o.parentId = some parent →
      ((updateKeplerOrbits bodies t ds Mode.Realistic).get ⟨i, hi2⟩).position =
        V3.add parent.position (keplerOffset o t ds)) ∧
    (∀ (bodies : List Body) (dt : ℝ) (cfg : GravityConfig) (i : ℕ)
      (hi : i < bodies.length)
      (hi2 : i < (applyGravityStep bodies dt cfg).length),
      ((bodies.get ⟨i, hi⟩).kind = BodyKind.Asteroid ∨
        (bodies.get ⟨i, hi⟩).kind = BodyKind.Debris) →
      (bodies.get ⟨i, hi⟩).visible = true →
      ((applyGravityStep bodies dt cfg).get ⟨i, hi2⟩).velocity =
        V3.add (bodies.get ⟨i, hi⟩).velocity
          (V3.mul (accelSum (computeTopKInfluencers bodies (bodies.get ⟨i, hi⟩) cfg.topK)
            (bodies.get ⟨i, hi⟩).position cfg.G) dt)) ∧
    (∀ (bodies : List Body) (dt : ℝ) (i : ℕ)
      (hi : i < bodies.length)
      (hi2 : i < (integrateBodies bodies dt).length),
      ((bodies.get ⟨i, hi⟩).kind = BodyKind.Asteroid ∨
        (bodies.get ⟨i, hi⟩).kind = BodyKind.Debris) →
      (bodies.get ⟨i, hi⟩).visible = true →
      ((integrateBodies bodies dt).get ⟨i, hi2⟩).position =
        V3.add (bodies.get ⟨i, hi⟩).position
          (V3.mul (bodies.get ⟨i, hi⟩).velocity dt)) := by
  refine ⟨?_, ?_, ?_⟩
  · intro bodies t ds i hi hi2 o parent ho hp
    rw [updateKepler_get bodies t ds i hi hi2]
    unfold keplerUpdateBody
    rw [ho]
    dsimp only
    rw [hp]
  · intro bodies dt cfg i hi hi2 hk hv
    rw [applyGravity_get bodies dt cfg i hi hi2,
      if_pos (freeBody_of_asteroid_or_debris _ hk hv)]
  · intro bodies dt i hi hi2 hk hv
    rw [integrate_get bodies dt i hi hi2,
      if_pos (freeBody_of_asteroid_or_debris _ hk hv)]

/-- Witness for the amended C1 at the concrete sun/asteroid pair: the orbiting
asteroid is moved onto the orbit by updateKeplerOrbits, and its velocity and
position are still updated by applyGravityStep and integrateBodies. -/
theorem C1_amended_witness :
    ((updateKeplerOrbits [sunEx, astEx] 0 1 Mode.Realistic).get
        ⟨1, by simp [length_updateKeplerOrbits]⟩).position =
      V3.add sunEx.position (keplerOffset (orbitUnit "sun") 0 1) ∧
    ((applyGravityStep [sunEx, astEx] 1 ⟨1, 1⟩).get
        ⟨1, by simp [length_applyGravityStep]⟩).velocity =
      V3.add astEx.velocity
        (V3.mul (accelSum (computeTopKInfluencers [sunEx, astEx] astEx 1)
          astEx.position 1) 1) ∧
    ((integrateBodies [sunEx, astEx] 1).get
        ⟨1, by simp [length_integrateBodies]⟩).position =
      V3.add astEx.position (V3.mul astEx.velocity 1) := by
  obtain ⟨h1, h2, h3⟩ := C1_amended_asteroids_orbit_overwritten_but_force_driven
  exact ⟨h1 [sunEx, astEx] 0 1 1 (by norm_num) (by simp [length_updateKeplerOrbits])
      (orbitUnit "sun") sunEx rfl rfl,
    h2 [sunEx, astEx] 1 ⟨1, 1⟩ 1 (by norm_num) (by simp [length_applyGravityStep])
      (Or.inl rfl) rfl,
    h3 [sunEx, astEx] 1 1 (by norm_num) (by simp [length_integrateBodies])
      (Or.inl rfl) rfl⟩

/-- C3 counterexample: a Star-kind body that carries an orbit descriptor whose
parent id resolves is moved by updateKeplerOrbits in Realistic mode — the
companion star at (5,5,5) is pulled onto its Kepler orbit. -/
theorem C3_counterexample :
    starOrbEx.kind = BodyKind.Star ∧
    starOrbEx.orbit = some (orbitUnit "sun") ∧
    lookupId [sunEx, starOrbEx] "sun" = some sunEx ∧
    ((updateKeplerOrbits [sunEx, starOrbEx] 0 1 Mode.Realistic).getD 1 dummyBody).position ≠
      starOrbEx.position := by
  refine ⟨rfl, rfl, rfl, ?_⟩
  have h0 : (updateKeplerOrbits [sunEx, starOrbEx] 0 1 Mode.Realistic).getD 1 dummyBody =
      { starOrbEx with
        position := V3.add sunEx.position (keplerOffset (orbitUnit "sun") 0 1) } := rfl
  rw [h0, keplerOffset_orbitUnit]
  intro hcontra
  have hx := congrArg Vec3.x hcontra
  simp [starOrbEx, sunEx, dummyBody, V3.add, Vec3.zero] at hx

/-- C3 amended: a Star-kind body is never force-integrated — applyGravityStep
and integrateBodies return it entirely unchanged — and updateKeplerOrbits
leaves a Star unchanged in every mode provided it carries no orbit descriptor;
a Star with a resolved orbit descriptor is orbit-evaluated like any other
body. -/
theorem C3_amended_star_immovable_unless_orbiting :
    (∀ (bodies : List Body) (dt : ℝ) (cfg : GravityConfig) (i : ℕ)
      (hi : i < bodies.length)
      (hi2 : i < (applyGravityStep bodies dt cfg).length),
      (bodies.get ⟨i, hi⟩).kind = BodyKind.Star →
      (applyGravityStep bodies dt cfg).get ⟨i, hi2⟩ = bodies.get ⟨i, hi⟩) ∧
    (∀ (bodies : List Body) (dt : ℝ) (i : ℕ)
      (hi : i < bodies.length)
      (hi2 : i < (integrateBodies bodies dt).length),
      (bodies.get ⟨i, hi⟩).kind = BodyKind.Star →
      (integrateBodies bodies dt).get ⟨i, hi2⟩ = bodies.get ⟨i, hi⟩) ∧
    (∀ (bodies : List Body) (t ds : ℝ) (m : Mode) (i : ℕ)
      (hi : i < bodies.length)
      (hi2 : i < (updateKeplerOrbits bodies t ds m).length),
      (bodies.get ⟨i, hi⟩).orbit = none →
      (updateKeplerOrbits bodies t ds m).get ⟨i, hi2⟩ = bodies.get ⟨i, hi⟩) := by
  refine ⟨?_, ?_, ?_⟩
  · intro bodies dt cfg i hi hi2 hk
    rw [applyGravity_get bodies dt cfg i hi hi2, if_neg (by rw [freeBody_star _ hk]; simp)]
  · intro bodies dt i hi hi2 hk
    rw [integrate_get bodies dt i hi hi2, if_neg (by rw [freeBody_star _ hk]; simp)]
  · intro bodies t ds m i hi hi2 ho
    cases m with
    | Chaos => rfl
    | Realistic =>
      rw [updateKepler_get bodies t ds i hi hi2]
      unfold keplerUpdateBody
      rw [ho]

/-- Witness for the amended C3 at the concrete two-body system: the orbit-free
sun passes unchanged through all three stages. -/
theorem C3_amended_witness :
    (applyGravityStep [sunEx, starOrbEx] 1 ⟨1, 2⟩).get
        ⟨0, by simp [length_applyGravityStep]⟩ = sunEx ∧
    (integrateBodies [sunEx, starOrbEx] 1).get
        ⟨0, by simp [length_integrateBodies]⟩ = sunEx ∧
    (updateKeplerOrbits [sunEx, starOrbEx] 0 1 Mode.Realistic).get
        ⟨0, by simp [length_updateKeplerOrbits]⟩ = sunEx := by
  obtain ⟨h1, h2, h3⟩ := C3_amended_star_immovable_unless_orbiting
  exact ⟨h1 [sunEx, starOrbEx] 1 ⟨1, 2⟩ 0 (by norm_num)
      (by simp [length_applyGravityStep]) rfl,
    h2 [sunEx, starOrbEx] 1 0 (by norm_num) (by simp [length_integrateBodies]) rfl,
    h3 [sunEx, starOrbEx] 0 1 Mode.Realistic 0 (by norm_num)
      (by simp [length_updateKeplerOrbits]) rfl⟩

/-- C4 counterexample: with two exactly opposed sources (mass 2 at (1,0,0),
mass 1 at (-1,0,0)) acting on a free body at the origin, raising topK from 1
to 2 strictly DECREASES the magnitude of the applied velocity change (2G down
to G), because the second-ranked contribution points the opposite way. -/
theorem C4_counterexample :
    V3.len (((applyGravityStep bodies4 1 ⟨1, 2⟩).getD 0 dummyBody).velocity) <
      V3.len (((applyGravityStep bodies4 1 ⟨1, 1⟩).getD 0 dummyBody).velocity) := by
  rw [grav4_vel_two, grav4_vel_one, len_one_x, len_two_x]
  norm_num

/-- C4 amended: the velocity delta with topK = 2 equals the delta with
topK = 1 plus dt times the contribution of the second-ranked influencer (the
selection takes the highest mass/distance² scores in order); the magnitude of
the total can therefore decrease when the two contributions oppose. -/
theorem C4_amended_topK_additivity (bodies : List Body) (dt G : ℝ) (i : ℕ)
    (hi : i < bodies.length)
    (hi2 : i < (applyGravityStep bodies dt ⟨G, 2⟩).length)
    (hi1 : i < (applyGravityStep bodies dt ⟨G, 1⟩).length)
    (hfree : freeBody (bodies.get ⟨i, hi⟩) = true) :
    ((applyGravityStep bodies dt ⟨G, 2⟩).get ⟨i, hi2⟩).velocity =
      V3.add ((applyGravityStep bodies dt ⟨G, 1⟩).get ⟨i, hi1⟩).velocity
        (V3.mul (accelSum ((((sortedCandidates bodies (bodies.get ⟨i, hi⟩)).drop 1).take 1).map
          Scored.b) (bodies.get ⟨i, hi⟩).position G) dt) := by
  rw [applyGravity_get bodies dt ⟨G, 2⟩ i hi hi2, applyGravity_get bodies dt ⟨G, 1⟩ i hi hi1,
    if_pos hfree, if_pos hfree]
  dsimp only
  rw [computeTopK_two_split, accelSum_append, v3_mul_add, v3_add_assoc]

/-- Witness for the amended C4 at the opposed-sources example: the topK = 2
velocity of the target equals its topK = 1 velocity plus the second-ranked
contribution. -/
theorem C4_amended_witness :
    ((applyGravityStep bodies4 1 ⟨1, 2⟩).get
        ⟨0, by simp [length_applyGravityStep, bodies4]⟩).velocity =
      V3.add ((applyGravityStep bodies4 1 ⟨1, 1⟩).get
          ⟨0, by simp [length_applyGravityStep, bodies4]⟩).velocity
        (V3.mul (accelSum ((((sortedCandidates bodies4 target4).drop 1).take 1).map Scored.b)
          target4.position 1) 1) := by
  exact C4_amended_topK_additivity bodies4 1 1 0 (by norm_num [bodies4])
    (by simp [length_applyGravityStep, bodies4])
    (by simp [length_applyGravityStep, bodies4]) rfl

/-- C7: the floating-origin rebase is a pure translation: after maybeRecenter
(in both branches, in particular when the camera distance reaches the
threshold and applyShift runs), every pairwise body distance and every
body-camera distance is unchanged, and the accumulated origin offset plus a
post-rebase body position equals the pre-rebase absolute position
(offset + pre-rebase position). -/
theorem C7_rebase_pure_translation (st : FOState) (i j : ℕ)
    (hi : i < st.bodies.length) (hj : j < st.bodies.length) :
    dist3 ((FloatingOrigin.maybeRecenter st).bodies.getD i Vec3.zero)
        ((FloatingOrigin.maybeRecenter st).bodies.getD j Vec3.zero) =
      dist3 (st.bodies.getD i Vec3.zero) (st.bodies.getD j Vec3.zero) ∧
    dist3 ((FloatingOrigin.maybeRecenter st).bodies.getD i Vec3.zero)
        (FloatingOrigin.maybeRecenter st).cameraPos =
      dist3 (st.bodies.getD i Vec3.zero) st.cameraPos ∧
    V3.add (FloatingOrigin.maybeRecenter st).originOffset
        ((FloatingOrigin.maybeRecenter st).bodies.getD i Vec3.zero) =
      V3.add st.originOffset (st.bodies.getD i Vec3.zero) := by
  unfold FloatingOrigin.maybeRecenter
  by_cases h : V3.len st.cameraPos < st.threshold
  · rw [if_pos h]
    exact ⟨rfl, rfl, rfl⟩
  · rw [if_neg h]
    unfold FloatingOrigin.applyShift
    dsimp only
    rw [shiftPositions_getD _ _ i hi, shiftPositions_getD _ _ j hj]
    exact ⟨dist3_sub_sub _ _ _, dist3_sub_sub _ _ _, offset_invariant _ _ _⟩

/-- Witness for C7 at the concrete state st6 (camera at distance 500, beyond
the threshold 400, so the rebase fires). -/
theorem C7_rebase_pure_translation_witness :
    dist3 ((FloatingOrigin.maybeRecenter st6).bodies.getD 0 Vec3.zero)
        ((FloatingOrigin.maybeRecenter st6).bodies.getD 1 Vec3.zero) =
      dist3 (st6.bodies.getD 0 Vec3.zero) (st6.bodies.getD 1 Vec3.zero) ∧
    dist3 ((FloatingOrigin.maybeRecenter st6).bodies.getD 0 Vec3.zero)
        (FloatingOrigin.maybeRecenter st6).cameraPos =
      dist3 (st6.bodies.getD 0 Vec3.zero) st6.cameraPos ∧
    V3.add (FloatingOrigin.maybeRecenter st6).originOffset
        ((FloatingOrigin.maybeRecenter st6).bodies.getD 0 Vec3.zero) =
      V3.add st6.originOffset (st6.bodies.getD 0 Vec3.zero) := by
  exact C7_rebase_pure_translation st6 0 1 (by norm_num [st6]) (by norm_num [st6])

/-- C6 counterexample: the camera sits past the threshold, the rebase fires,
and the body objects of the input list are mutated: after the call the list
holds the shifted positions, so the input body list is NOT left unchanged
(the source writes `b.position[0] -= shift.x` through the input array). -/
theorem C6_counterexample :
    (FloatingOrigin.maybeRecenter st6).bodies ≠ st6.bodies := by
  rw [maybeRecenter_st6]
  intro h
  have h0 := congrArg (fun l => (l.getD 0 Vec3.zero).x) h
  simp only [FloatingOrigin.applyShift, shiftPositions_eq_map] at h0
  norm_num [st6, V3.sub, List.getD] at h0

/-- C6 amended: updateKeplerOrbits, applyGravityStep and integrateBodies
build fresh lists of copies, but FloatingOrigin.applyShift (and maybeRecenter
when the threshold is reached) writes through its arguments: after the call
every body position of the passed list equals its old value minus the shift,
the accumulator has the shift added, and both camera vectors have the shift
subtracted. -/
theorem C6_amended_applyShift_mutates_in_place (shift : Vec3) (st : FOState) (i : ℕ)
    (hi : i < st.bodies.length) :
    (FloatingOrigin.applyShift shift st).bodies.getD i Vec3.zero =
      V3.sub (st.bodies.getD i Vec3.zero) shift ∧
    (FloatingOrigin.applyShift shift st).originOffset = V3.add st.originOffset shift ∧
    (FloatingOrigin.applyShift shift st).cameraPos = V3.sub st.cameraPos shift ∧
    (FloatingOrigin.applyShift shift st).cameraTarget = V3.sub st.cameraTarget shift := by
  exact ⟨shiftPositions_getD shift st.bodies i hi, rfl, rfl, rfl⟩

/-- Witness for the amended C6 at the concrete state st6 with shift (5,0,0). -/
theorem C6_amended_witness :
    (FloatingOrigin.applyShift ⟨5, 0, 0⟩ st6).bodies.getD 0 Vec3.zero =
      V3.sub (st6.bodies.getD 0 Vec3.zero) ⟨5, 0, 0⟩ ∧
    (FloatingOrigin.applyShift ⟨5, 0, 0⟩ st6).originOffset =
      V3.add st6.originOffset ⟨5, 0, 0⟩ ∧
    (FloatingOrigin.applyShift ⟨5, 0, 0⟩ st6).cameraPos =
      V3.sub st6.cameraPos ⟨5, 0, 0⟩ ∧
    (FloatingOrigin.applyShift ⟨5, 0, 0⟩ st6).cameraTarget =
      V3.sub st6.cameraTarget ⟨5, 0, 0⟩ := by
  exact C6_amended_applyShift_mutates_in_place ⟨5, 0, 0⟩ st6 0 (by norm_num [st6])

/-- C2: evaluation of the code at the failing input of the absorption claim.
The example black hole carries absorbRadius 1.2 (radiusScale 1) and the probe
asteroid rests at distance 1 < 1.2 from its center, so the claim requires its
removal after one step; the per-asteroid step of updateAsteroids — the only
removal logic of the code — leaves it alive and emits nothing, because no code
path consults absorbRadius (removal is by scaled-mesh-radius contact only,
1 > 0.6 + 0.04, and bodies of the world list are never removed at all). -/
theorem C2_no_absorption_at_failing_input :
    (bhWorld.blackhole.map BlackHoleInfo.absorbRadius).getD 0 = 1.2 ∧
    dist3 ast2.pos bhWorld.position <
      (bhWorld.blackhole.map BlackHoleInfo.absorbRadius).getD 0 * 1 ∧
    (stepAsteroid [bhInfo] 1 ast2).1.alive = true ∧
    (stepAsteroid [bhInfo] 1 ast2).2 = none := by
  have hstep := stepAsteroid_nohit_eq [bhInfo] 1 ast2 rfl (by norm_num [ast2]) findhit_c2
  refine ⟨rfl, ?_, ?_, ?_⟩
  · rw [dist_c2,
      show (bhWorld.blackhole.map BlackHoleInfo.absorbRadius).getD 0 = 1.2 from rfl]
    norm_num
  · rw [hstep]
    rfl
  · rw [hstep]

/-- C5 counterexample: the asteroid at distance 0.95 from a star-typed body is
removed with an impact emitted, although the claim allows a hit only against
Planet/Moon targets and only at distance strictly below
(targetRadius + bodyRadius)·radiusScale·0.9 = 0.9 < 0.95. -/
theorem C5_counterexample :
    starInfo.type = "star" ∧
    0.9 * ((starInfo.radius + ast5.radius) * 1) ≤
      dist3 (astPos2 [starInfo] 1 ast5) starInfo.pos ∧
    (stepAsteroid [starInfo] 1 ast5).1.alive = false ∧
    (stepAsteroid [starInfo] 1 ast5).2 ≠ none := by
  have hstep := stepAsteroid_hit_eq [starInfo] 1 ast5 starInfo rfl (by norm_num [ast5])
    findhit_c5
  refine ⟨rfl, ?_, ?_, ?_⟩
  · rw [dist_c5]
    norm_num [starInfo, ast5]
  · rw [hstep]
  · rw [hstep]
    simp

/-- C5 amended: each live, unexpired asteroid is tested against every body of
the list regardless of kind or enabled flag; a hit registers exactly on
squared distance ≤ (bodyRadius + asteroidRadius)² of the post-integration
position (the radii already carry radiusScale; there is no 0.9 factor and the
comparison is non-strict); the first matching body in list iteration order
wins, the asteroid is removed, and the bodies after the match are never
examined. -/
theorem C5_amended_first_match_hit (xs ys : List BodyInfo) (b : BodyInfo) (dt : ℝ)
    (a : Asteroid) (h1 : a.alive = true) (h2 : ¬(a.ttl - dt ≤ 0))
    (hmiss : ∀ x ∈ xs, ¬(V3.dot (V3.sub (astPos2 (xs ++ b :: ys) dt a) x.pos)
      (V3.sub (astPos2 (xs ++ b :: ys) dt a) x.pos) ≤
        (x.radius + a.radius) * (x.radius + a.radius)))
    (hhit : V3.dot (V3.sub (astPos2 (xs ++ b :: ys) dt a) b.pos)
      (V3.sub (astPos2 (xs ++ b :: ys) dt a) b.pos) ≤
        (b.radius + a.radius) * (b.radius + a.radius)) :
    (stepAsteroid (xs ++ b :: ys) dt a).1.alive = false ∧
    (stepAsteroid (xs ++ b :: ys) dt a).2 =
      some { pos := V3.add b.pos
               (V3.mul (safeNormalize (V3.sub (astPos2 (xs ++ b :: ys) dt a) b.pos)) b.radius),
             normal := safeNormalize (V3.sub (astPos2 (xs ++ b :: ys) dt a) b.pos),
             energy := 0.5 * a.mass *
               V3.dot (astVel2 (xs ++ b :: ys) dt a) (astVel2 (xs ++ b :: ys) dt a) } := by
  have h3 := findHitBody_first (astPos2 (xs ++ b :: ys) dt a) a.radius xs ys b hmiss hhit
  have hstep := stepAsteroid_hit_eq (xs ++ b :: ys) dt a b h1 h2 h3
  rw [hstep]
  exact ⟨rfl, rfl⟩

/-- Witness for the amended C5: in the list [farInfo, starInfo, bhInfo] the
asteroid misses the leading far body and hits the star-typed body; it is
removed and the event is built from that first match, the trailing body never
examined. -/
theorem C5_amended_witness :
    (stepAsteroid [farInfo, starInfo, bhInfo] 1 ast5).1.alive = false ∧
    (stepAsteroid [farInfo, starInfo, bhInfo] 1 ast5).2 =
      some { pos := V3.add starInfo.pos
               (V3.mul (safeNormalize (V3.sub (astPos2 [farInfo, starInfo, bhInfo] 1 ast5)
                 starInfo.pos)) starInfo.radius),
             normal := safeNormalize (V3.sub (astPos2 [farInfo, starInfo, bhInfo] 1 ast5)
               starInfo.pos),
             energy := 0.5 * ast5.mass *
               V3.dot (astVel2 [farInfo, starInfo, bhInfo] 1 ast5)
                 (astVel2 [farInfo, starInfo, bhInfo] 1 ast5) } := by
  exact C5_amended_first_match_hit [farInfo] [bhInfo] starInfo 1 ast5 rfl
    (by norm_num [ast5])
    (by
      intro x hx
      rw [List.mem_singleton] at hx
      subst hx
      rw [show astPos2 ([farInfo] ++ starInfo :: [bhInfo]) 1 ast5 = ⟨0.95, 0, 0⟩
        from pos_c5w]
      norm_num [farInfo, ast5, V3.dot, V3.sub])
    (by
      rw [show astPos2 ([farInfo] ++ starInfo :: [bhInfo]) 1 ast5 = ⟨0.95, 0, 0⟩
        from pos_c5w]
      norm_num [starInfo, ast5, V3.dot, V3.sub, Vec3.zero])

/-- C9: whenever the per-asteroid step emits an impact event, its energy is
exactly 0.5·mass·|velocity|² of the impacting asteroid at the moment of
contact (the post-gravity velocity of this step), independent of the impact
direction — the energy reads only the squared speed. -/
theorem C9_impact_energy (bodies : List BodyInfo) (dt : ℝ) (a : Asteroid)
    (ev : ImpactEvent) (h : (stepAsteroid bodies dt a).2 = some ev) :
    ev.energy = 0.5 * a.mass * V3.dot (astVel2 bodies dt a) (astVel2 bodies dt a) ∧
    ev.energy = 0.5 * a.mass * V3.len (astVel2 bodies dt a) ^ 2 := by
  have hmain : ev.energy = 0.5 * a.mass * V3.dot (astVel2 bodies dt a) (astVel2 bodies dt a) := by
    unfold stepAsteroid at h
    by_cases h1 : a.alive = false
    · rw [if_pos h1] at h
      simp at h
    · rw [if_neg h1] at h
      by_cases h2 : a.ttl - dt ≤ 0
      · rw [if_pos h2] at h
        simp at h
      · rw [if_neg h2] at h
        dsimp only at h
        cases h3 : findHitBody (astPos2 bodies dt a) a.radius bodies with
        | none =>
          rw [h3] at h
          simp at h
        | some hb =>
          rw [h3] at h
          simp only [Option.some.injEq] at h
          rw [← h]
  exact ⟨hmain, by rw [hmain, len_sq_eq_dot]⟩

/-- Witness for C9: the mass-1 asteroid hitting the planet at speed 10 emits
an event of energy exactly 50. -/
theorem C9_impact_energy_witness :
    Option.map ImpactEvent.energy ((stepAsteroid [pl9] 1 ast9).2) = some 50 := by
  have hstep := stepAsteroid_hit_eq [pl9] 1 ast9 pl9 rfl (by norm_num [ast9]) findhit_c9
  have hev : (stepAsteroid [pl9] 1 ast9).2 =
      some { pos := V3.add pl9.pos
               (V3.mul (safeNormalize (V3.sub (astPos2 [pl9] 1 ast9) pl9.pos)) pl9.radius),
             normal := safeNormalize (V3.sub (astPos2 [pl9] 1 ast9) pl9.pos),
             energy := 0.5 * ast9.mass *
               V3.dot (astVel2 [pl9] 1 ast9) (astVel2 [pl9] 1 ast9) } := by
    rw [hstep]
  have hE := (C9_impact_energy [pl9] 1 ast9 _ hev).1
  rw [hev, Option.map_some', hE]
  simp only [Option.some.injEq]
  rw [vel_c9]
  norm_num [ast9, V3.dot]

end Galaxy
